import Mathlib

/-!
Verification development for the pooled-client lifecycle and transaction
state machine of the fastify-postgres repository.

The repository ships several historical variants of the same module:

* `src/unnamed/part_001` — the current implementation documented by the
  README (`beginTransaction` / `commitTransaction` /
  `rollbackTransactionIfNotCommitted`, synchronous `release`);
* `src/unnamed/part_000`, second half — the "async" variant
  (`asyncBeginTransaction` / `asyncCommitTransaction` / `asyncTryRollback`,
  asynchronous `release` that awaits the rollback);
* `src/unnamed/part_000`, first half, and `src/database.js` — earlier
  variants without transaction support.

Each patched client method is embedded as a list of atomic micro-actions
(`Act`) over the client's mutable fields, in the exact order the JavaScript
statements execute under the single-threaded event-loop model: an `await`ed
call contributes all of its actions before the caller's continuation, while
a call that is *not* awaited contributes only its synchronous part (up to
its first internal `await`, which is where the underlying driver call is
submitted) before the caller's continuation, and its remaining actions
after the caller's synchronous remainder.  `exec` interprets an action list
as a state transformer, which lets us state temporal ("at no point ...")
properties as facts about every prefix of a trace.
-/

/-- Named-parameter mappings (the JavaScript `params` object) are modelled as
association lists from parameter name to an integer value; the wrapper only
stores and forwards them, never inspects them. -/
abbrev Params := List (String × Int)

/-- Mutable fields of a wrapped pooled client that the patched methods read
and write.  The JavaScript `sanityTimeout` field stores an opaque timer
handle and is only ever tested for truthiness, cleared to `null`, or
overwritten by `setTimeout`; we model it by the Boolean "a handle is
stored". -/
structure ClientState where
  isWithinTransaction : Bool
  isQueryRunning : Bool
  sanityTimeout : Bool
  lastQuery : Option (String × Params)
  deriving DecidableEq, Repr

/-- Atomic micro-actions performed by the patched client methods.  The
`dispatch` action marks the synchronous submission of a statement to the
underlying driver (the call of the un-patched `query` method); `complete`
marks the observed settlement of that call.  `poolRelease` is the delegation
to the underlying pool's native `release`. -/
inductive Act
  | setLastQuery (text : String) (params : Params)
  | setQueryRunning (b : Bool)
  | setTx (b : Bool)
  | dispatch (text : String)
  | complete (text : String)
  | logTrace (msg : String)
  | logWarn (msg : String)
  | logError (msg : String)
  | clearTimer
  | setTimer
  | poolRelease
  deriving DecidableEq, Repr

/-- Effect of one micro-action on the client state.  Log events, driver
dispatch/completion and the pool delegation do not change the wrapper's own
fields. -/
def applyAct (s : ClientState) : Act → ClientState
  | .setLastQuery t p => { s with lastQuery := some (t, p) }
  | .setQueryRunning b => { s with isQueryRunning := b }
  | .setTx b => { s with isWithinTransaction := b }
  | .clearTimer => { s with sanityTimeout := false }
  | .setTimer => { s with sanityTimeout := true }
  | _ => s

/-- Run a list of micro-actions from a state. -/
def exec (s : ClientState) (acts : List Act) : ClientState :=
  acts.foldl applyAct s

/-- Character class of the first regex in
`text.replace(/[ \n\r\t]+/gi, " ")` (part_001 line 155): space, newline,
carriage return and tab. -/
def isRunWs (c : Char) : Bool :=
  c = ' ' || c = '\n' || c = '\r' || c = '\t'

/-- First replacement of the normalization: collapse every maximal run of
space, newline, carriage return and tab characters into a single space. -/
def collapseWs : List Char → List Char
  | [] => []
  | [c] => if isRunWs c then [' '] else [c]
  | a :: b :: rest =>
    if isRunWs a then
      if isRunWs b then collapseWs (b :: rest)
      else ' ' :: b :: collapseWs rest
    else a :: collapseWs (b :: rest)

/-- Character class of the JavaScript regex escape `\s`, used by the second
replacement `.replace(/^\s+|\s+$/g, "")`. -/
def isJsWs (c : Char) : Bool :=
  let n := c.toNat
  n = 9 || n = 10 || n = 11 || n = 12 || n = 13 || n = 32 ||
  n = 160 || n = 5760 || (8192 ≤ n && n ≤ 8202) ||
  n = 8232 || n = 8233 || n = 8239 || n = 8287 || n = 12288 || n = 65279

/-- Second replacement of the normalization: trim `\s`-class characters from
both ends. -/
def trimJsWs (l : List Char) : List Char :=
  ((l.dropWhile isJsWs).reverse.dropWhile isJsWs).reverse

/-- Whitespace normalization applied to the query text for logging, from
part_001 line 155:
`text.replace(/[ \n\r\t]+/gi, " ").replace(/^\s+|\s+$/g, "")`. -/
def normalizeWs (text : String) : String :=
  String.mk (trimJsWs (collapseWs text.data))

/-- Synchronous part of one patched `query(text, params)` call (part_001
lines 154-157 up to the `await` on line 159): record the normalized text and
the parameters as `lastQuery`, set `isQueryRunning`, and submit the
*original* text to the underlying driver. -/
def queryDispatchActs (text : String) (params : Params) : List Act :=
  [.setLastQuery (normalizeWs text) params, .setQueryRunning true, .dispatch text]

/-- Continuation of one patched `query` call after the underlying call
settles (part_001 lines 159-166): on failure log the error and re-raise; the
`finally` clause clears `isQueryRunning` on both paths. -/
def queryCompletionActs (text : String) (ok : Bool) : List Act :=
  (if ok then [Act.complete text]
   else [Act.complete text, Act.logError "Database query error"]) ++
  [Act.setQueryRunning false]

/-- Full trace of one awaited patched `query(text, params)` call whose
underlying call succeeds iff `ok` (part_001 lines 154-167; the async variant
in part_000 lines 347-360 is identical). -/
def queryActs (text : String) (params : Params) (ok : Bool) : List Act :=
  queryDispatchActs text params ++ queryCompletionActs text ok

/-- Trace of `beginTransaction()` from part_001 lines 201-209: when already
in a transaction, log an error and return `false` without issuing anything;
otherwise issue `begin` through the patched query and set the flag only
after the query succeeded. -/
def beginTransactionActs (s : ClientState) (ok : Bool) : List Act :=
  if s.isWithinTransaction then
    [.logError "Tried to start transaction in transaction"]
  else
    [Act.logTrace "begin transaction"] ++ queryActs "begin" [] ok ++
    (if ok then [Act.setTx true] else [])

/-- Trace of `commitTransaction()` from part_001 lines 219-227: when not in
a transaction, log an error and return `false`; otherwise clear
`isWithinTransaction` first ("this must come before the async call") and
then issue `commit` through the patched query. -/
def commitTransactionActs (s : ClientState) (ok : Bool) : List Act :=
  if !s.isWithinTransaction then
    [.logError "Tried to commit transaction outside of transaction"]
  else
    [Act.setTx false] ++ queryActs "commit" [] ok

/-- Trace of `rollbackTransactionIfNotCommitted()` from part_001 lines
237-244 when the call is awaited: when in a transaction, clear the flag
first, log a warning, and issue `rollback`; otherwise do nothing. -/
def rollbackTransactionIfNotCommittedActs (s : ClientState) (ok : Bool) : List Act :=
  if s.isWithinTransaction then
    [Act.setTx false, Act.logWarn "Rolling back transaction"] ++ queryActs "rollback" [] ok
  else
    []

/-- Synchronous part of `rollbackTransactionIfNotCommitted()` (up to the
submission of the `rollback` statement inside the patched query). -/
def rollbackSyncActs (s : ClientState) : List Act :=
  if s.isWithinTransaction then
    [Act.setTx false, Act.logWarn "Rolling back transaction"] ++ queryDispatchActs "rollback" []
  else
    []

/-- Deferred continuation of the rollback started by `release` (the part of
the patched `query` call after its internal `await`). -/
def rollbackDeferredActs (s : ClientState) (ok : Bool) : List Act :=
  if s.isWithinTransaction then queryCompletionActs "rollback" ok else []

/-- Trace of the patched `release()` from part_001 lines 177-191.  The call
`this.rollbackTransactionIfNotCommitted()` on line 180 is *not* awaited
(`release` is not even an async function), so only the synchronous part of
the rollback — through the submission of the `rollback` statement — runs
before the rest of `release`; the completion of the rollback query runs
after `release` has already delegated to the pool's native release. -/
def releaseActs (s : ClientState) (rollbackOk : Bool) : List Act :=
  [Act.logTrace "Releasing client"] ++
  rollbackSyncActs s ++
  [Act.setQueryRunning false] ++
  (if s.sanityTimeout then [Act.clearTimer] else []) ++
  [Act.poolRelease] ++
  rollbackDeferredActs s rollbackOk

/-- Trace of `asyncBeginTransaction()` from the async variant (part_000
lines 394-403): the flag is set *before* the `begin` statement is issued;
when the query fails the flag stays set. -/
def asyncBeginTransactionActs (s : ClientState) (ok : Bool) : List Act :=
  if s.isWithinTransaction then
    [.logError "Tried to start transaction in transaction"]
  else
    [Act.logTrace "BEGIN <", Act.setTx true] ++ queryActs "begin" [] ok ++
    (if ok then [Act.logTrace "BEGIN < Done"] else [])

/-- Trace of `asyncCommitTransaction()` from the async variant (part_000
lines 413-423): despite the comment "this must come before the async call",
the `commit` statement is issued first and `isWithinTransaction` is cleared
only after the query completed (and not at all when it fails). -/
def asyncCommitTransactionActs (s : ClientState) (ok : Bool) : List Act :=
  if !s.isWithinTransaction then
    [.logError "Tried to commit transaction outside of transaction on client"]
  else
    [Act.logTrace "COMMIT <"] ++ queryActs "commit" [] ok ++
    (if ok then [Act.setTx false, Act.logTrace "COMMIT < Done"] else [])

/-- Trace of `asyncTryRollback()` from the async variant (part_000 lines
433-442): log a trace line, then if in a transaction log the warning, clear
the flag, and issue `rollback`; when the `rollback` query fails its error
propagates out of the `await`, so the closing warning is not logged. -/
def asyncTryRollbackActs (s : ClientState) (ok : Bool) : List Act :=
  [Act.logTrace "Called rollbackIfNotCommitted"] ++
  (if s.isWithinTransaction then
    [Act.logWarn "ROLLBACK <", Act.setTx false] ++ queryActs "rollback" [] ok ++
    (if ok then [Act.logWarn "ROLLBACK < Done"] else [])
  else [])

/-- Trace of the async variant's patched `release()` (part_000 lines
370-384): `await this.asyncTryRollback()` completes before `isQueryRunning`
is cleared, the timer is cancelled, and the pool's native release runs.
When a rollback was needed and its query failed, the `await` re-raises, so
the continuation of `release` does not run at all. -/
def asyncReleaseActs (s : ClientState) (rollbackOk : Bool) : List Act :=
  [Act.logTrace "Releasing client"] ++
  asyncTryRollbackActs s rollbackOk ++
  (if !s.isWithinTransaction || rollbackOk then
    [Act.setQueryRunning false] ++
    (if s.sanityTimeout then [Act.clearTimer] else []) ++
    [Act.poolRelease]
  else [])

/-- Trace of the patched `query` of the earliest variant (src/database.js
lines 120-133): it logs a trace line and records the *original* text as
`lastQuery`, without whitespace normalization. -/
def dbQueryActs (text : String) (params : Params) (ok : Bool) : List Act :=
  [.logTrace "Issuing query", .setLastQuery text params, .setQueryRunning true,
   .dispatch text] ++ queryCompletionActs text ok

/-- State after executing a prefix of a trace. -/
def stateAt (s : ClientState) (acts : List Act) (i : Nat) : ClientState :=
  exec s (acts.take i)

/-- Number of occurrences of an action in a trace. -/
def countAct (a : Act) (l : List Act) : Nat :=
  (l.filter (fun x => x = a)).length

/-- A `commit` statement is in flight at position `i` when it has been
dispatched but its completion has not yet been observed. -/
def commitInFlightAt (acts : List Act) (i : Nat) : Bool :=
  countAct (.complete "commit") (acts.take i) < countAct (.dispatch "commit") (acts.take i)

/-- Never-property of C1: at every point of the trace at which a `commit`
statement is in flight, `isWithinTransaction` already reads false. -/
def neverCommitInFlightInTx (s : ClientState) (acts : List Act) : Bool :=
  (List.range (acts.length + 1)).all
    (fun i => !commitInFlightAt acts i || !(stateAt s acts i).isWithinTransaction)

/-- A concrete client state that is inside a transaction (leak timer armed,
no query running). -/
def inTxState : ClientState :=
  { isWithinTransaction := true, isQueryRunning := false,
    sanityTimeout := true, lastQuery := none }

/-- A concrete freshly-acquired client state: no transaction, no query
running, leak timer armed, no query issued yet. -/
def freshState : ClientState :=
  { isWithinTransaction := false, isQueryRunning := false,
    sanityTimeout := true, lastQuery := none }

/-- Recognizer for driver submissions, used to state "no SQL statement is
dispatched" and "exactly this statement is dispatched". -/
def isDispatch : Act → Bool
  | .dispatch _ => true
  | _ => false

/-- True when no element of the trace satisfies `p`. -/
def noneSat (p : Act → Bool) (l : List Act) : Bool :=
  l.all (fun x => !p x)

/-- True when every action satisfying `p` occurs strictly before every
action satisfying `q`: once the first `q`-action is reached, no `p`-action
may follow. -/
def allBefore (p q : Act → Bool) : List Act → Bool
  | [] => true
  | a :: rest => if q a then noneSat p rest else allBefore p q rest

/-- JavaScript values returned by the transaction methods: `undefined` on
the success path (no `return` statement) and `false` on protocol misuse. -/
inductive JsValue
  | undefined
  | bool (b : Bool)
  deriving DecidableEq, Repr

/-- JavaScript truthiness of the modelled return values. -/
def truthy : JsValue → Bool
  | .undefined => false
  | .bool b => b

/-- Value-level embedding of one patched `query(text, params)` call
(part_001 lines 154-167).  `outcome` is the settlement of the underlying
driver call (`.ok rowCount` or `.error e`); the result is the new state,
the value returned or re-raised to the caller, and the trace.  The `catch`
block re-raises the caught error itself and the `finally` block clears
`isQueryRunning` on both paths. -/
def queryRun (s : ClientState) (text : String) (params : Params)
    (outcome : Except String Nat) : ClientState × Except String Nat × List Act :=
  let s1 := { s with lastQuery := some (normalizeWs text, params),
                     isQueryRunning := true }
  match outcome with
  | .ok rowCount =>
    ({ s1 with isQueryRunning := false }, .ok rowCount, queryActs text params true)
  | .error e =>
    ({ s1 with isQueryRunning := false }, .error e, queryActs text params false)

/-- Value returned (or error raised) by `beginTransaction()` in part_001:
`false` when already in a transaction, otherwise `undefined` when the
`begin` query succeeds and the query's own error when it fails. -/
def beginTransactionResult (s : ClientState) (out : Except String Unit) :
    Except String JsValue :=
  if s.isWithinTransaction then .ok (.bool false)
  else
    match out with
    | .ok _ => .ok .undefined
    | .error e => .error e

/-- Value returned (or error raised) by `commitTransaction()` in part_001:
`false` when not in a transaction, otherwise `undefined` when the `commit`
query succeeds and the query's own error when it fails. -/
def commitTransactionResult (s : ClientState) (out : Except String Unit) :
    Except String JsValue :=
  if !s.isWithinTransaction then .ok (.bool false)
  else
    match out with
    | .ok _ => .ok .undefined
    | .error e => .error e

/-- Value returned by `asyncBeginTransaction()` of the async variant; same
shape as part_001's `beginTransaction`. -/
def asyncBeginTransactionResult (s : ClientState) (out : Except String Unit) :
    Except String JsValue :=
  if s.isWithinTransaction then .ok (.bool false)
  else
    match out with
    | .ok _ => .ok .undefined
    | .error e => .error e

/-- Value returned by `asyncCommitTransaction()` of the async variant; same
shape as part_001's `commitTransaction`. -/
def asyncCommitTransactionResult (s : ClientState) (out : Except String Unit) :
    Except String JsValue :=
  if !s.isWithinTransaction then .ok (.bool false)
  else
    match out with
    | .ok _ => .ok .undefined
    | .error e => .error e

/-- Operations a request handler can issue on a wrapped client (part_001
semantics).  Each carries the settlement of its underlying driver call. -/
inductive Op
  | beginTx (ok : Bool)
  | clientQuery (text : String) (params : Params) (ok : Bool)
  | commitTx (ok : Bool)
  | release (ok : Bool)
  deriving DecidableEq, Repr

/-- Trace of one operation from a given state (part_001 methods). -/
def opActs (s : ClientState) : Op → List Act
  | .beginTx ok => beginTransactionActs s ok
  | .clientQuery t p ok => queryActs t p ok
  | .commitTx ok => commitTransactionActs s ok
  | .release ok => releaseActs s ok

/-- Run a sequence of operations, threading the state and concatenating the
traces. -/
def runOps (s : ClientState) : List Op → ClientState × List Act
  | [] => (s, [])
  | op :: rest =>
    let acts := opActs s op
    let res := runOps (exec s acts) rest
    (res.1, acts ++ res.2)

/-- View a `(text, params, ok)` triple as a client query operation. -/
def queryOp (q : String × Params × Bool) : Op :=
  .clientQuery q.1 q.2.1 q.2.2

/-- JavaScript function objects installed on the raw client, tracked up to
the structure that the patch guards inspect: `native` is an un-patched
driver method (its `methodWasPatched_` property is absent), `namedParams`
is the wrapper installed by the external named-parameter module (which does
not set `methodWasPatched_` either), and the five remaining constructors
are the overrides installed by `patchClient`, each of which gets
`methodWasPatched_ = true`. -/
inductive MethodObj
  | native
  | namedParams (old : MethodObj)
  | patchedQuery (old : MethodObj)
  | patchedRelease (old : MethodObj)
  | txBegin
  | txCommit
  | txRollback
  deriving DecidableEq, Repr

/-- The `methodWasPatched_` marker read by the guards in `patchClient`
(part_001 lines 152, 175, 199, 217, 235). -/
def methodWasPatched : MethodObj → Bool
  | .patchedQuery _ => true
  | .patchedRelease _ => true
  | .txBegin => true
  | .txCommit => true
  | .txRollback => true
  | _ => false

/-- Method table and marker flags of a raw pooled connection object, as
mutated by part_001's `patchClient`.  The three transaction methods are
`Option` because they are absent on a never-patched client. -/
structure RawClient where
  namedParameters : Bool
  query : MethodObj
  release : MethodObj
  beginTransaction : Option MethodObj
  commitTransaction : Option MethodObj
  rollbackTransactionIfNotCommitted : Option MethodObj
  deriving DecidableEq, Repr

/-- Named-parameter stage of `patchClient` (part_001 lines 141-145):
guarded by the `namedParameters` flag on the client. -/
def patchNamedParametersStage (c : RawClient) : RawClient :=
  if c.namedParameters then c
  else { c with namedParameters := true, query := .namedParams c.query }

/-- Query stage of `patchClient` (part_001 lines 149-170): wrap `query`
unless the current `query` carries the marker. -/
def patchQueryStage (c : RawClient) : RawClient :=
  if methodWasPatched c.query then c
  else { c with query := .patchedQuery c.query }

/-- Release stage of `patchClient` (part_001 lines 173-194). -/
def patchReleaseStage (c : RawClient) : RawClient :=
  if methodWasPatched c.release then c
  else { c with release := .patchedRelease c.release }

/-- Truthiness of `oldMethod && oldMethod.methodWasPatched_`: the method
exists and carries the marker.  The guards on the three transaction stages
(part_001 lines 199, 217, 235) skip the patch exactly when this holds. -/
def optPatched : Option MethodObj → Bool
  | some m => methodWasPatched m
  | none => false

/-- Transaction-begin stage of `patchClient` (part_001 lines 197-212):
install unless the method exists and carries the marker. -/
def patchBeginStage (c : RawClient) : RawClient :=
  if optPatched c.beginTransaction then c
  else { c with beginTransaction := some .txBegin }

/-- Transaction-commit stage of `patchClient` (part_001 lines 215-230). -/
def patchCommitStage (c : RawClient) : RawClient :=
  if optPatched c.commitTransaction then c
  else { c with commitTransaction := some .txCommit }

/-- Rollback stage of `patchClient` (part_001 lines 233-247). -/
def patchRollbackStage (c : RawClient) : RawClient :=
  if optPatched c.rollbackTransactionIfNotCommitted then c
  else { c with rollbackTransactionIfNotCommitted := some .txRollback }

/-- The whole `patchClient` of part_001 (lines 136-249): the six guarded
stages in source order. -/
def patchClient (c : RawClient) : RawClient :=
  patchRollbackStage (patchCommitStage (patchBeginStage
    (patchReleaseStage (patchQueryStage (patchNamedParametersStage c)))))

/-- Raw client of the earliest variant (src/database.js), whose guard is
the `patched` flag on the client object (lines 69-73) rather than marker
flags on the methods. -/
structure DbClient where
  patched : Bool
  query : MethodObj
  release : MethodObj
  deriving DecidableEq, Repr

/-- Unguarded `patchClient` of src/database.js (lines 112-150): apply the
named-parameter patch and wrap `query` and `release` unconditionally. -/
def dbPatchClient (c : DbClient) : DbClient :=
  { c with query := .patchedQuery (.namedParams c.query),
           release := .patchedRelease c.release }

/-- The patching operation as actually invoked by src/database.js
`getClient` (lines 69-73): patch only when the `patched` flag is unset,
setting the flag first. -/
def dbGetClientPatch (c : DbClient) : DbClient :=
  if c.patched then c else dbPatchClient { c with patched := true }

/-- A request object: the decorated properties (written through the
configured property name) and the `dbClients` list used by the manual
cleanup path. Clients are identified by their numeric `uniqueId`. -/
structure Request where
  props : List (String × Nat)
  dbClients : List Nat
  deriving DecidableEq, Repr

/-- Write a property on the request (`request[name] = client`). -/
def setProp (r : Request) (name : String) (v : Nat) : Request :=
  { r with props := (name, v) :: r.props }

/-- Read a property from the request. -/
def getProp (r : Request) (name : String) : Option Nat :=
  (r.props.find? (fun p => p.1 == name)).map (fun p => p.2)

/-- A request with no decorations and no attached clients. -/
def emptyRequest : Request :=
  { props := [], dbClients := [] }

/-- The per-request precondition of part_001 (`requireDbClient`, lines
108-129): bind the acquired client under the configured property name,
register cleanup either through the cleanup plugin or by appending to the
request's client list, and return the client (`return client`, line 127).
The async variant (part_000 lines 301-322) is identical in these respects.
The registered cleanup callback itself is outside this claim. -/
def requireDbClient (requestDecorator : String) (cleanupPluginAvailable : Bool)
    (request : Request) (client : Nat) : Request × Option Nat :=
  let r1 := setProp request requestDecorator client
  let r2 :=
    if cleanupPluginAvailable then r1
    else { r1 with dbClients := r1.dbClients ++ [client] }
  (r2, some client)

/-- The per-request precondition of the list variant (part_000 first half,
lines 108-120): bind the client and append it to the request's client
list; the handler body has no `return` statement, so the call resolves to
`undefined`. -/
def requireDbClientList (requestDecorator : String) (request : Request) (client : Nat) :
    Request × Option Nat :=
  let r1 := setProp request requestDecorator client
  ({ r1 with dbClients := r1.dbClients ++ [client] }, none)

/-- The per-request precondition of src/database.js (lines 101-106): bind
the client under the configured property name; no `return` statement, so
the call resolves to `undefined`. -/
def requireDbClientEarly (clientDecorator : String) (request : Request) (client : Nat) :
    Request × Option Nat :=
  (setProp request clientDecorator client, none)

/-- Running a concatenated trace equals running the parts in order. -/
theorem exec_append (s : ClientState) (l1 l2 : List Act) :
    exec s (l1 ++ l2) = exec (exec s l1) l2 := by
  simp [exec, List.foldl_append]

/-- Effect of one patched query call on the client state: it rewrites
`lastQuery` and finishes with `isQueryRunning` cleared, leaving the
transaction flag and the timer untouched. -/
theorem exec_queryActs (s : ClientState) (t : String) (p : Params) (ok : Bool) :
    exec s (queryActs t p ok) =
      { s with lastQuery := some (normalizeWs t, p), isQueryRunning := false } := by
  rcases s with ⟨tx, qr, tm, lq⟩
  cases ok <;> rfl

/-- The value-level embedding of the patched query and its trace agree: the
state returned by `queryRun` is the state reached by executing its trace. -/
theorem queryRun_state_eq_exec (s : ClientState) (t : String) (p : Params)
    (out : Except String Nat) :
    (queryRun s t p out).1 = exec s (queryRun s t p out).2.2 := by
  rcases s with ⟨tx, qr, tm, lq⟩
  cases out <;> rfl

/-- A run of client queries never changes the transaction flag. -/
theorem runOps_queries_tx (qs : List (String × Params × Bool)) (s : ClientState) :
    ((runOps s (qs.map queryOp)).1).isWithinTransaction = s.isWithinTransaction := by
  induction qs generalizing s with
  | nil => rfl
  | cons q rest ih =>
    show ((runOps (exec s (queryActs q.1 q.2.1 q.2.2)) (rest.map queryOp)).1).isWithinTransaction = _
    rw [ih, exec_queryActs]

/-- The part_001 `release` dispatches `rollback` exactly once when in a
transaction and never otherwise, and always leaves the transaction flag and
the timer cleared. -/
theorem releaseActs_rollback_count (s : ClientState) (ok : Bool) :
    countAct (Act.dispatch "rollback") (releaseActs s ok) =
      (if s.isWithinTransaction then 1 else 0) ∧
    (exec s (releaseActs s ok)).isWithinTransaction = false ∧
    (exec s (releaseActs s ok)).sanityTimeout = false := by
  rcases s with ⟨tx, qr, tm, lq⟩
  cases tx <;> cases tm <;> cases ok <;> exact ⟨rfl, rfl, rfl⟩

/-- Occurrence counts add up over concatenated traces. -/
theorem countAct_append (a : Act) (l1 l2 : List Act) :
    countAct a (l1 ++ l2) = countAct a l1 + countAct a l2 := by
  simp [countAct, List.filter_append]

/-- The part_001 `release` never arms a leak timer. -/
theorem releaseActs_no_setTimer (s : ClientState) (ok : Bool) :
    countAct Act.setTimer (releaseActs s ok) = 0 := by
  rcases s with ⟨tx, qr, tm, lq⟩
  cases tx <;> cases tm <;> cases ok <;> rfl

/-- C1: in part_001's `commitTransaction`, invoked with
`inTransaction = true`, the flag is cleared strictly before the `COMMIT`
statement is dispatched, so the flag never reads true while a `COMMIT` is
in flight; in the async variant's `asyncCommitTransaction` — one of the
code places this claim cites — the same never-property is violated: the
`COMMIT` is dispatched first and the flag cleared only after its
completion, contradicting the comment placed directly above those lines. -/
theorem C1_commit_clears_flag_before_dispatch :
    neverCommitInFlightInTx inTxState (commitTransactionActs inTxState true) = true ∧
    neverCommitInFlightInTx inTxState (asyncCommitTransactionActs inTxState true) = false := by
  decide

/-- C2: after `beginTransaction` (whose `BEGIN` succeeded) and any number of
query calls with arbitrary outcomes but no `commitTransaction`, a
`release()` dispatches exactly one `ROLLBACK` and leaves
`inTransaction = false` afterward. -/
theorem C2_release_rolls_back_once (s0 : ClientState)
    (qs : List (String × Params × Bool)) (rbOk : Bool)
    (h : s0.isWithinTransaction = false) :
    countAct (Act.dispatch "rollback")
      (releaseActs ((runOps s0 (Op.beginTx true :: qs.map queryOp)).1) rbOk) = 1 ∧
    (exec ((runOps s0 (Op.beginTx true :: qs.map queryOp)).1)
      (releaseActs ((runOps s0 (Op.beginTx true :: qs.map queryOp)).1) rbOk)).isWithinTransaction
      = false := by
  have hmid : ((runOps s0 (Op.beginTx true :: qs.map queryOp)).1).isWithinTransaction = true := by
    show ((runOps (exec s0 (beginTransactionActs s0 true)) (qs.map queryOp)).1).isWithinTransaction = true
    rw [runOps_queries_tx]
    rcases s0 with ⟨tx, qr, tm, lq⟩
    simp only at h
    subst h
    rfl
  obtain ⟨h1, h2, -⟩ :=
    releaseActs_rollback_count ((runOps s0 (Op.beginTx true :: qs.map queryOp)).1) rbOk
  rw [hmid] at h1
  simpa using ⟨h1, h2⟩

/-- Witness for C2: a fresh client, one successful `BEGIN`, one query, then
release. -/
theorem C2_witness :
    countAct (Act.dispatch "rollback")
      (releaseActs ((runOps freshState
        (Op.beginTx true :: [("select 1", ([] : Params), true)].map queryOp)).1) true) = 1 ∧
    (exec ((runOps freshState
        (Op.beginTx true :: [("select 1", ([] : Params), true)].map queryOp)).1)
      (releaseActs ((runOps freshState
        (Op.beginTx true :: [("select 1", ([] : Params), true)].map queryOp)).1) true)).isWithinTransaction
      = false :=
  C2_release_rolls_back_once freshState [("select 1", [], true)] true rfl

/-- Counterexample to C3: in part_001's `release`, called on a client inside
a transaction, the delegation to the pool's native release occurs strictly
before the completion of the `ROLLBACK` query — the rollback is dispatched
but not awaited, so it has not completed when the connection is returned to
the pool. -/
theorem C3_counterexample :
    Act.poolRelease ∈ releaseActs inTxState true ∧
    Act.complete "rollback" ∈ releaseActs inTxState true ∧
    (releaseActs inTxState true).findIdx (· == Act.poolRelease) <
      (releaseActs inTxState true).findIdx (· == Act.complete "rollback") := by
  decide

set_option maxHeartbeats 2000000 in
/-- C3 as amended: the async variant's `release` performs the claimed
sequence in full — rollback (dispatched and completed, exactly once, when in
a transaction), then clearing of `queryRunning`, then timer cancellation,
then, as the final step, the pool's native release — whereas part_001's
`release` orders rollback dispatch, `queryRunning` clear, timer clear and
pool release the same way but does not await the rollback, so only the
dispatch of the `ROLLBACK`, not its completion, precedes the return of the
connection to the pool. -/
theorem C3_amended_release_order (s : ClientState) (rbOk : Bool) :
    (asyncReleaseActs s true).getLast? = some Act.poolRelease ∧
    countAct Act.poolRelease (asyncReleaseActs s true) = 1 ∧
    countAct (Act.dispatch "rollback") (asyncReleaseActs s true) =
      (if s.isWithinTransaction then 1 else 0) ∧
    countAct (Act.complete "rollback") (asyncReleaseActs s true) =
      (if s.isWithinTransaction then 1 else 0) ∧
    allBefore (· == Act.complete "rollback") (· == Act.setQueryRunning false)
      (asyncReleaseActs s true) = true ∧
    allBefore (· == Act.complete "rollback") (· == Act.clearTimer)
      (asyncReleaseActs s true) = true ∧
    allBefore (· == Act.setQueryRunning false) (· == Act.clearTimer)
      (asyncReleaseActs s true) = true ∧
    allBefore (· == Act.clearTimer) (· == Act.poolRelease)
      (asyncReleaseActs s true) = true ∧
    allBefore (· == Act.complete "rollback") (· == Act.poolRelease)
      (asyncReleaseActs s true) = true ∧
    (exec s (asyncReleaseActs s true)).isWithinTransaction = false ∧
    (exec s (asyncReleaseActs s true)).sanityTimeout = false ∧
    allBefore (· == Act.dispatch "rollback") (· == Act.poolRelease)
      (releaseActs s rbOk) = true ∧
    allBefore (· == Act.poolRelease) (· == Act.complete "rollback")
      (releaseActs s rbOk) = true ∧
    countAct (Act.dispatch "rollback") (releaseActs s rbOk) =
      (if s.isWithinTransaction then 1 else 0) := by
  rcases s with ⟨tx, qr, tm, lq⟩
  cases tx <;> cases tm <;> cases rbOk <;>
    exact ⟨rfl, rfl, rfl, rfl, rfl, rfl, rfl, rfl, rfl, rfl, rfl, rfl, rfl, rfl⟩

/-- C4: from any client state, a second `release()` in succession dispatches
no `ROLLBACK`, arms no leak timer, and the two calls together dispatch at
most one `ROLLBACK`. -/
theorem C4_double_release_inert (s : ClientState) (ok1 ok2 : Bool) :
    countAct (Act.dispatch "rollback")
      (releaseActs (exec s (releaseActs s ok1)) ok2) = 0 ∧
    countAct Act.setTimer (releaseActs (exec s (releaseActs s ok1)) ok2) = 0 ∧
    countAct (Act.dispatch "rollback")
      (releaseActs s ok1 ++ releaseActs (exec s (releaseActs s ok1)) ok2) ≤ 1 := by
  obtain ⟨h1, h2, -⟩ := releaseActs_rollback_count s ok1
  obtain ⟨g1, -, -⟩ := releaseActs_rollback_count (exec s (releaseActs s ok1)) ok2
  rw [h2] at g1
  have g2 : countAct (Act.dispatch "rollback")
      (releaseActs (exec s (releaseActs s ok1)) ok2) = 0 := by simpa using g1
  refine ⟨g2, releaseActs_no_setTimer _ _, ?_⟩
  rw [countAct_append, h1, g2]
  cases s.isWithinTransaction <;> simp

/-- C5: when the delegated underlying call of the patched `query` raises,
the identical error is re-raised after an error log, with exactly one
underlying dispatch (no retry), and `isQueryRunning` is cleared on the
failure path just as on the success path. -/
theorem C5_query_error_identity (s : ClientState) (text : String) (params : Params)
    (e : String) (r : Nat) :
    (queryRun s text params (.error e)).2.1 = .error e ∧
    ((queryRun s text params (.error e)).1).isQueryRunning = false ∧
    Act.logError "Database query error" ∈ (queryRun s text params (.error e)).2.2 ∧
    ((queryRun s text params (.error e)).2.2).filter isDispatch = [Act.dispatch text] ∧
    (queryRun s text params (.ok r)).2.1 = .ok r ∧
    ((queryRun s text params (.ok r)).1).isQueryRunning = false ∧
    ((queryRun s text params (.ok r)).2.2).filter isDispatch = [Act.dispatch text] := by
  refine ⟨rfl, rfl, ?_, rfl, rfl, rfl, rfl⟩
  simp [queryRun, queryActs, queryDispatchActs, queryCompletionActs]

/-- C6: `beginTransaction` invoked inside a transaction, and
`commitTransaction` invoked outside one, each log an error, return the falsy
value `false`, dispatch no SQL statement, and leave the client state — in
particular `inTransaction` — completely unchanged; and after a double
`BEGIN` only the first call's `begin` statement was dispatched while
`inTransaction` remains true. -/
theorem C6_misuse_is_noop (s1 s2 : ClientState) (ok : Bool) (out : Except String Unit)
    (h1 : s1.isWithinTransaction = true) (h2 : s2.isWithinTransaction = false) :
    (beginTransactionActs s1 ok).filter isDispatch = [] ∧
    Act.logError "Tried to start transaction in transaction" ∈ beginTransactionActs s1 ok ∧
    beginTransactionResult s1 out = .ok (.bool false) ∧
    truthy (.bool false) = false ∧
    exec s1 (beginTransactionActs s1 ok) = s1 ∧
    (commitTransactionActs s2 ok).filter isDispatch = [] ∧
    Act.logError "Tried to commit transaction outside of transaction" ∈ commitTransactionActs s2 ok ∧
    commitTransactionResult s2 out = .ok (.bool false) ∧
    exec s2 (commitTransactionActs s2 ok) = s2 ∧
    countAct (Act.dispatch "begin")
      (beginTransactionActs s2 true ++
        beginTransactionActs (exec s2 (beginTransactionActs s2 true)) true) = 1 ∧
    (exec s2 (beginTransactionActs s2 true)).isWithinTransaction = true := by
  rcases s1 with ⟨tx1, qr1, tm1, lq1⟩
  rcases s2 with ⟨tx2, qr2, tm2, lq2⟩
  simp only at h1 h2
  subst h1; subst h2
  refine ⟨rfl, ?_, rfl, rfl, rfl, rfl, ?_, rfl, rfl, rfl, rfl⟩
  · simp [beginTransactionActs]
  · simp [commitTransactionActs]

/-- Witness for C6: the in-transaction state for the double `BEGIN` and the
fresh state for the premature `COMMIT`. -/
theorem C6_witness :
    (beginTransactionActs inTxState true).filter isDispatch = [] ∧
    Act.logError "Tried to start transaction in transaction" ∈ beginTransactionActs inTxState true ∧
    beginTransactionResult inTxState (.ok ()) = .ok (.bool false) ∧
    truthy (.bool false) = false ∧
    exec inTxState (beginTransactionActs inTxState true) = inTxState ∧
    (commitTransactionActs freshState true).filter isDispatch = [] ∧
    Act.logError "Tried to commit transaction outside of transaction" ∈ commitTransactionActs freshState true ∧
    commitTransactionResult freshState (.ok ()) = .ok (.bool false) ∧
    exec freshState (commitTransactionActs freshState true) = freshState ∧
    countAct (Act.dispatch "begin")
      (beginTransactionActs freshState true ++
        beginTransactionActs (exec freshState (beginTransactionActs freshState true)) true) = 1 ∧
    (exec freshState (beginTransactionActs freshState true)).isWithinTransaction = true :=
  C6_misuse_is_noop inTxState freshState true (.ok ()) rfl rfl

/-- Reduction fact used when chasing the patch guards. -/
theorem mwp_namedParams (m : MethodObj) : methodWasPatched (.namedParams m) = false := rfl

/-- Reduction fact used when chasing the patch guards. -/
theorem mwp_patchedQuery (m : MethodObj) : methodWasPatched (.patchedQuery m) = true := rfl

/-- Reduction fact used when chasing the patch guards. -/
theorem mwp_patchedRelease (m : MethodObj) : methodWasPatched (.patchedRelease m) = true := rfl

/-- Reduction fact used when chasing the patch guards. -/
theorem mwp_txBegin : methodWasPatched .txBegin = true := rfl

/-- Reduction fact used when chasing the patch guards. -/
theorem mwp_txCommit : methodWasPatched .txCommit = true := rfl

/-- Reduction fact used when chasing the patch guards. -/
theorem mwp_txRollback : methodWasPatched .txRollback = true := rfl

/-- Reduction fact used when chasing the patch guards. -/
theorem optPatched_some (m : MethodObj) : optPatched (some m) = methodWasPatched m := rfl

/-- After one `patchClient`, every guard that the next invocation inspects
is satisfied: the named-parameter flag is set and all five methods carry
the patch marker. -/
theorem patchClient_marks (c : RawClient) :
    (patchClient c).namedParameters = true ∧
    methodWasPatched (patchClient c).query = true ∧
    methodWasPatched (patchClient c).release = true ∧
    optPatched (patchClient c).beginTransaction = true ∧
    optPatched (patchClient c).commitTransaction = true ∧
    optPatched (patchClient c).rollbackTransactionIfNotCommitted = true := by
  rcases c with ⟨np, q, r, b, co, rb⟩
  cases np <;> cases hq : methodWasPatched q <;> cases hr : methodWasPatched r <;>
    cases hb : optPatched b <;> cases hc : optPatched co <;> cases hrb : optPatched rb <;>
    simp [patchClient, patchNamedParametersStage, patchQueryStage, patchReleaseStage,
      patchBeginStage, patchCommitStage, patchRollbackStage, hq, hr, hb, hc, hrb,
      mwp_namedParams, mwp_patchedQuery, mwp_patchedRelease, mwp_txBegin, mwp_txCommit,
      mwp_txRollback, optPatched_some]

/-- When every guard is satisfied, `patchClient` changes nothing. -/
theorem patchClient_of_marks (c : RawClient)
    (h1 : c.namedParameters = true) (h2 : methodWasPatched c.query = true)
    (h3 : methodWasPatched c.release = true) (h4 : optPatched c.beginTransaction = true)
    (h5 : optPatched c.commitTransaction = true)
    (h6 : optPatched c.rollbackTransactionIfNotCommitted = true) :
    patchClient c = c := by
  simp [patchClient, patchNamedParametersStage, patchQueryStage, patchReleaseStage,
    patchBeginStage, patchCommitStage, patchRollbackStage, h1, h2, h3, h4, h5, h6]

/-- C7: applying the client patch twice to the same raw connection object is
the identity on the second application — the resulting method table, and
hence the behavior of query, release and the transaction operations, is
exactly that of a single application; this holds for part_001's
`patchClient` and for the flag-guarded patch of src/database.js
`getClient`. -/
theorem C7_patch_twice_eq_once (c : RawClient) (d : DbClient) :
    patchClient (patchClient c) = patchClient c ∧
    dbGetClientPatch (dbGetClientPatch d) = dbGetClientPatch d := by
  constructor
  · obtain ⟨h1, h2, h3, h4, h5, h6⟩ := patchClient_marks c
    exact patchClient_of_marks _ h1 h2 h3 h4 h5 h6
  · rcases d with ⟨p, q, r⟩
    cases p <;> simp [dbGetClientPatch, dbPatchClient]

/-- Counterexample to C8: in the src/database.js variant of the patched
query — one of the code places this claim cites — `lastQuery` records the
original text `"select  1"` verbatim, which differs from its
whitespace-normalized form `"select 1"`. -/
theorem C8_counterexample :
    (exec freshState (dbQueryActs "select  1" [] true)).lastQuery = some ("select  1", []) ∧
    normalizeWs "select  1" = "select 1" ∧
    ("select  1" : String) ≠ "select 1" := by
  refine ⟨rfl, ?_, by decide⟩
  decide

/-- C8 as amended: in the part_001 patched query (and the identical async
variant) `lastQuery` records the whitespace-normalized text while the
underlying driver receives the original text as the only dispatch; in the
earliest variant (src/database.js) the driver likewise receives the
original text but `lastQuery` records the original, un-normalized text. -/
theorem C8_amended_normalization (s : ClientState) (text : String) (params : Params)
    (ok : Bool) :
    (exec s (queryActs text params ok)).lastQuery = some (normalizeWs text, params) ∧
    (queryActs text params ok).filter isDispatch = [Act.dispatch text] ∧
    (exec s (dbQueryActs text params ok)).lastQuery = some (text, params) ∧
    (dbQueryActs text params ok).filter isDispatch = [Act.dispatch text] := by
  rcases s with ⟨tx, qr, tm, lq⟩
  cases ok <;> exact ⟨rfl, rfl, rfl, rfl⟩

/-- Counterexample to C9: the list variant of `requireDbClient` (part_000
first half) binds the acquired client onto the request but resolves to
`undefined`, not to the client. -/
theorem C9_counterexample :
    getProp (requireDbClientList "dbClient" emptyRequest 7).1 "dbClient" = some 7 ∧
    (requireDbClientList "dbClient" emptyRequest 7).2 ≠ some 7 := by
  decide

/-- C9 as amended: every variant of `requireDbClient` binds the acquired
client onto the request under the configured property name; the part_001
variant (and the identical async variant) additionally returns that same
client, while the list variant and the src/database.js variant return
`undefined`. -/
theorem C9_amended_binding (name : String) (cleanup : Bool) (request : Request)
    (client : Nat) :
    getProp (requireDbClient name cleanup request client).1 name = some client ∧
    (requireDbClient name cleanup request client).2 = some client ∧
    getProp (requireDbClientList name request client).1 name = some client ∧
    (requireDbClientList name request client).2 = none ∧
    getProp (requireDbClientEarly name request client).1 name = some client ∧
    (requireDbClientEarly name request client).2 = none := by
  cases cleanup <;>
    simp [requireDbClient, requireDbClientList, requireDbClientEarly, setProp, getProp,
      List.find?]

/-- C10: on the success path `beginTransaction` and `commitTransaction`
(part_001 and async variants alike) return `undefined`, whose truthiness
equals that of the `false` returned on protocol misuse, so a truthiness
check cannot distinguish success from rejection. -/
theorem C10_success_also_falsy (s1 s2 : ClientState) (out : Except String Unit)
    (h1 : s1.isWithinTransaction = false) (h2 : s2.isWithinTransaction = true) :
    beginTransactionResult s1 (.ok ()) = .ok .undefined ∧
    commitTransactionResult s2 (.ok ()) = .ok .undefined ∧
    asyncBeginTransactionResult s1 (.ok ()) = .ok .undefined ∧
    asyncCommitTransactionResult s2 (.ok ()) = .ok .undefined ∧
    beginTransactionResult s2 out = .ok (.bool false) ∧
    commitTransactionResult s1 out = .ok (.bool false) ∧
    asyncBeginTransactionResult s2 out = .ok (.bool false) ∧
    asyncCommitTransactionResult s1 out = .ok (.bool false) ∧
    truthy .undefined = truthy (.bool false) := by
  rcases s1 with ⟨tx1, qr1, tm1, lq1⟩
  rcases s2 with ⟨tx2, qr2, tm2, lq2⟩
  simp only at h1 h2
  subst h1; subst h2
  exact ⟨rfl, rfl, rfl, rfl, rfl, rfl, rfl, rfl, rfl⟩

/-- Witness for C10: the fresh state for the success paths of `begin` and
the misuse paths of `commit`, and the in-transaction state for the
converse. -/
theorem C10_witness :
    beginTransactionResult freshState (.ok ()) = .ok .undefined ∧
    commitTransactionResult inTxState (.ok ()) = .ok .undefined ∧
    asyncBeginTransactionResult freshState (.ok ()) = .ok .undefined ∧
    asyncCommitTransactionResult inTxState (.ok ()) = .ok .undefined ∧
    beginTransactionResult inTxState (.ok ()) = .ok (.bool false) ∧
    commitTransactionResult freshState (.ok ()) = .ok (.bool false) ∧
    asyncBeginTransactionResult inTxState (.ok ()) = .ok (.bool false) ∧
    asyncCommitTransactionResult freshState (.ok ()) = .ok (.bool false) ∧
    truthy .undefined = truthy (.bool false) :=
  C10_success_also_falsy freshState inTxState (.ok ()) rfl rfl
